import Mathlib

/-!
Shallow embedding of `performance/pkg/profiles/profile.go` (package `profiles`
of the efficientgo tools repository).

The Go code sequences directory creation, file creation, runtime profiler
hook activation/deactivation and error propagation. We model the observable
effects explicitly:

* `World` carries the ordered trace of filesystem/runtime actions performed
  (`events`), the set of currently open file handles (`openFiles`), and the
  process-wide `runtime.MemProfileRate` knob (`memProfileRate`).
* `Env` is a fault oracle: for each fallible external call
  (`os.MkdirAll`, `os.Create`, `pprof.WriteHeapProfile`,
  `pprof.StartCPUProfile`, `trace.Start`, `File.Close`, the fgprof stop
  callback) it prescribes whether that call fails in the modelled run and
  with which error.
* Go errors are modelled by `Err`: an opaque base message, a wrapping
  (`errors.Wrapf`) and a combination of two errors.
* The stop closures returned by `StartCPU` / `StartTrace` are reified as the
  data type `StopFn`; `runStop` gives their behaviour when invoked later
  (under a possibly different fault oracle).

Each Go function becomes a Lean function taking the oracle and the incoming
world and returning the outgoing world together with its Go results
(`Option StopFn` for a possibly-nil function value, `Option Err` for a
possibly-nil error).
-/

namespace Profiles

/-- Go errors: an opaque message (`errors.Errorf` / an error value coming
from the runtime), a wrapped error (`errors.Wrapf(err, msg)`), or a
combination of two errors (when a helper surfaces a secondary error without
dropping the primary one). -/
inductive Err where
  | base (msg : String)
  | wrap (msg : String) (e : Err)
  | merge (e1 e2 : Err)
deriving DecidableEq, Repr

/-- `includesErr e t` holds when the error value `e` contains `t`:
either `e` is `t` itself, or `t` occurs inside a wrapping or combination. -/
def includesErr : Err → Err → Bool
  | Err.base s, t => Err.base s = t
  | Err.wrap m e, t => Err.wrap m e = t || includesErr e t
  | Err.merge e1 e2, t => Err.merge e1 e2 = t || includesErr e1 t || includesErr e2 t

/-- One observable external action performed by the Go code, in order. -/
inductive Event where
  | mkdirAll (dir : String)
  | createFile (path : String)
  | writeHeap (path : String)
  | startCPUProfile
  | stopCPUProfile
  | fgprofStart (path : String)
  | fgprofStop
  | traceStart
  | traceStop
  | closeFile (path : String)
deriving DecidableEq, Repr

/-- The state the Go code can observe or mutate: the ordered action trace,
the set of open file handles, and `runtime.MemProfileRate`. -/
structure World where
  events : List Event
  openFiles : List String
  memProfileRate : Int
deriving DecidableEq, Repr

/-- Fault oracle for the external calls of one invocation: `none` means the
call succeeds, `some e` means it fails with error `e`. -/
structure Env where
  mkdirErr : Option Err
  createErr : Option Err
  writeHeapErr : Option Err
  startCPUProfileErr : Option Err
  traceStartErr : Option Err
  closeErr : Option Err
  fgprofStopErr : Option Err
deriving DecidableEq, Repr

/-- `filepath.Join dir name` (modelled as plain concatenation with a
separator; path cleaning is irrelevant to the claims). -/
def joinPath (dir name : String) : String := dir ++ "/" ++ name

/-- `os.MkdirAll dir os.ModePerm`: on success the directory (with
intermediate directories) exists; on failure nothing is recorded. -/
def osMkdirAll (env : Env) (w : World) (dir : String) : World × Option Err :=
  match env.mkdirErr with
  | some e => (w, some e)
  | none => ({ w with events := w.events ++ [Event.mkdirAll dir] }, none)

/-- `os.Create path`: on success the file is created/truncated and its
handle is open; on failure nothing is recorded. -/
def osCreate (env : Env) (w : World) (path : String) : World × Option Err :=
  match env.createErr with
  | some e => (w, some e)
  | none =>
    ({ w with events := w.events ++ [Event.createFile path],
              openFiles := path :: w.openFiles }, none)

/-- `f.Close()`: the handle is closed (removed from the open set) and the
oracle decides whether the close call reports an error. -/
def fClose (env : Env) (w : World) (path : String) : World × Option Err :=
  ({ w with events := w.events ++ [Event.closeFile path],
            openFiles := w.openFiles.erase path }, env.closeErr)

/-- Modelled from the spec: `errcapture.Do(&err, f.Close, msg)` from the
repository's `core/pkg/errcapture` package, whose source is not under the
provided sources. Per the spec, the deferred close is always attempted and
its error, if any, "is also surfaced via a best-effort wrapping rather than
silently dropped", and "no error is ever silently swallowed" except the
trace-start gap; hence a secondary (close) error is wrapped with the message
and, when a primary error is already present, combined with it rather than
replacing it or being dropped. -/
def errcaptureDo (priorErr : Option Err) (doResult : Option Err) (msg : String) : Option Err :=
  match doResult with
  | none => priorErr
  | some d =>
    match priorErr with
    | none => some (Err.wrap msg d)
    | some e => some (Err.merge e (Err.wrap msg d))

/-- `StopHeapRecording`: `runtime.MemProfileRate = 0`. -/
def StopHeapRecording (w : World) : World :=
  { w with memProfileRate := 0 }

/-- `StartHeapRecording(everyAlloc)`: rate 1 when `everyAlloc`, else
`512 * 1024`. -/
def StartHeapRecording (w : World) (everyAlloc : Bool) : World :=
  if everyAlloc then { w with memProfileRate := 1 }
  else { w with memProfileRate := 512 * 1024 }

/-- `pprof.WriteHeapProfile(f)`: on success a heap snapshot is written to
the file; the oracle decides failure. -/
def pprofWriteHeapProfile (env : Env) (w : World) (path : String) : World × Option Err :=
  match env.writeHeapErr with
  | some e => (w, some e)
  | none => ({ w with events := w.events ++ [Event.writeHeap path] }, none)

/-- `Heap(dir)`: `MkdirAll`; `Create(dir/mem.pprof)`;
`defer errcapture.Do(&err, f.Close, "close")`; `return WriteHeapProfile(f)`. -/
def Heap (env : Env) (w : World) (dir : String) : World × Option Err :=
  match osMkdirAll env w dir with
  | (w1, some e) => (w1, some e)
  | (w1, none) =>
    match osCreate env w1 (joinPath dir "mem.pprof") with
    | (w2, some e) => (w2, some e)
    | (w2, none) =>
      match pprofWriteHeapProfile env w2 (joinPath dir "mem.pprof") with
      | (w3, werr) =>
        match fClose env w3 (joinPath dir "mem.pprof") with
        | (w4, cerr) => (w4, errcaptureDo werr cerr "close")

/-- `CPUTypeBuiltIn`: Go constant of string type `CPUType`. -/
def CPUTypeBuiltIn : String := "built-in"

/-- `CPUTypeFGProf`: Go constant of string type `CPUType`. -/
def CPUTypeFGProf : String := "fgprof"

/-- The stop closure returned by `StartCPU` / `StartTrace`, reified:
which facility it detaches and which open file it captured. -/
inductive StopFn where
  | builtin (path : String)
  | fgprofStop (path : String)
  | traceStop (path : String)
deriving DecidableEq, Repr

/-- `StartCPU(dir, typ)`. First switch validates `typ` and selects the file
name (default case returns the "unknown CPU profile type" error); then
`MkdirAll`, `Create`; second switch attaches the chosen profiler and builds
the stop closure. A fall-through of the second switch (unreachable, since
the first switch already returned for any other value) would return a nil
closer and a nil error, exactly as the Go code would. -/
def StartCPU (env : Env) (w : World) (dir : String) (typ : String) :
    World × Option StopFn × Option Err :=
  if typ = CPUTypeBuiltIn ∨ typ = CPUTypeFGProf then
    let fileName := if typ = CPUTypeFGProf then "cpu.fgprof.pprof" else "cpu.pprof"
    match osMkdirAll env w dir with
    | (w1, some e) => (w1, none, some e)
    | (w1, none) =>
      match osCreate env w1 (joinPath dir fileName) with
      | (w2, some e) => (w2, none, some e)
      | (w2, none) =>
        if typ = CPUTypeBuiltIn then
          match env.startCPUProfileErr with
          | some e =>
            match fClose env w2 (joinPath dir fileName) with
            | (w3, cerr) =>
              (w3, none, errcaptureDo (some e) cerr ("close " ++ joinPath dir fileName))
          | none =>
            ({ w2 with events := w2.events ++ [Event.startCPUProfile] },
             some (StopFn.builtin (joinPath dir fileName)), none)
        else if typ = CPUTypeFGProf then
          ({ w2 with events := w2.events ++ [Event.fgprofStart (joinPath dir fileName)] },
           some (StopFn.fgprofStop (joinPath dir fileName)), none)
        else
          (w2, none, none)
  else
    (w, none, some (Err.base ("unknown CPU profile type " ++ typ)))

/-- Invoking a stop closure later, under the fault oracle of that moment.
Built-in: `pprof.StopCPUProfile()` then `errors.Wrapf(f.Close(), "close p")`.
fgprof: `defer errcapture.Do(&ferr, f.Close, "close p")`;
`return closeFGProfFn()`. Trace: `trace.Stop()` then wrapped close. -/
def runStop (s : StopFn) (env : Env) (w : World) : World × Option Err :=
  match s with
  | StopFn.builtin path =>
    match fClose env { w with events := w.events ++ [Event.stopCPUProfile] } path with
    | (w2, cerr) => (w2, cerr.map (fun c => Err.wrap ("close " ++ path) c))
  | StopFn.fgprofStop path =>
    match fClose env { w with events := w.events ++ [Event.fgprofStop] } path with
    | (w2, cerr) => (w2, errcaptureDo env.fgprofStopErr cerr ("close " ++ path))
  | StopFn.traceStop path =>
    match fClose env { w with events := w.events ++ [Event.traceStop] } path with
    | (w2, cerr) => (w2, cerr.map (fun c => Err.wrap ("close " ++ path) c))

/-- `StartTrace(dir)`: `MkdirAll`; `Create(dir/trace.out)`; `trace.Start(f)`
— on failure the error is returned with the file still open (no close on
this path); on success the stop closure is returned. -/
def StartTrace (env : Env) (w : World) (dir : String) :
    World × Option StopFn × Option Err :=
  match osMkdirAll env w dir with
  | (w1, some e) => (w1, none, some e)
  | (w1, none) =>
    match osCreate env w1 (joinPath dir "trace.out") with
    | (w2, some e) => (w2, none, some e)
    | (w2, none) =>
      match env.traceStartErr with
      | some e => (w2, none, some e)
      | none =>
        ({ w2 with events := w2.events ++ [Event.traceStart] },
         some (StopFn.traceStop (joinPath dir "trace.out")), none)

/-- `errHas r t`: the possibly-nil error `r` is non-nil and contains `t`. -/
def errHas (r : Option Err) (t : Err) : Bool :=
  match r with
  | none => false
  | some re => includesErr re t

/-- `errHasOpt r t`: whenever `t` is an actual error, `r` contains it. -/
def errHasOpt (r t : Option Err) : Bool :=
  match t with
  | none => true
  | some te => errHas r te

/-- Every error value contains itself. -/
theorem includesErr_self (e : Err) : includesErr e e = true := by
  cases e <;> simp [includesErr]

/- Concrete fixtures used by the witness theorems. -/

def w0 : World := { events := [], openFiles := [], memProfileRate := 0 }

def envAllOK : Env :=
  { mkdirErr := none, createErr := none, writeHeapErr := none,
    startCPUProfileErr := none, traceStartErr := none, closeErr := none,
    fgprofStopErr := none }

def e0 : Err := Err.base "facility failed"

/-- Claim C7: `StartHeapRecording true` sets the global sampling rate to 1,
`StartHeapRecording false` sets it to exactly 524288, `StopHeapRecording`
sets it to 0, and `StartHeapRecording true` followed by `StopHeapRecording`
leaves it at 0; the functions are total (no error path). -/
theorem heapRecording_rates (w : World) :
    (StartHeapRecording w true).memProfileRate = 1 ∧
    (StartHeapRecording w false).memProfileRate = 524288 ∧
    (StopHeapRecording w).memProfileRate = 0 ∧
    (StopHeapRecording (StartHeapRecording w true)).memProfileRate = 0 := by
  simp [StartHeapRecording, StopHeapRecording]

/-- Claim C10: `StartHeapRecording` and `StopHeapRecording` mutate only the
sampling-rate knob: the action trace (so no filesystem operation) and the
open-file set are left unchanged. -/
theorem heapRecording_frame (w : World) (b : Bool) :
    (StartHeapRecording w b).events = w.events ∧
    (StartHeapRecording w b).openFiles = w.openFiles ∧
    (StopHeapRecording w).events = w.events ∧
    (StopHeapRecording w).openFiles = w.openFiles := by
  cases b <;> simp [StartHeapRecording, StopHeapRecording]

/-- Claim C3: for a backend value that is neither built-in nor fgprof,
`StartCPU` returns the whole world unchanged (no directory created, no file
created or truncated), a nil stop function, and an error naming the invalid
value. -/
theorem startCPU_unknown_type_no_effect (env : Env) (w : World) (dir typ : String)
    (h1 : typ ≠ CPUTypeBuiltIn) (h2 : typ ≠ CPUTypeFGProf) :
    StartCPU env w dir typ =
      (w, none, some (Err.base ("unknown CPU profile type " ++ typ))) := by
  simp [StartCPU, h1, h2]

/-- Claim C3 witness at `typ = "bogus"`. -/
theorem startCPU_unknown_type_no_effect_witness :
    StartCPU envAllOK w0 "d" "bogus" =
      (w0, none, some (Err.base "unknown CPU profile type bogus")) :=
  startCPU_unknown_type_no_effect envAllOK w0 "d" "bogus" (by decide) (by decide)

/-- Claim C8: when directory and file creation succeed, `StartCPU` with the
fgprof backend always returns a nil error and a non-nil stop function, for
every fault oracle: attaching fgprof cannot fail at start time. -/
theorem startCPU_fgprof_start_always_succeeds (env : Env) (w : World) (dir : String)
    (h1 : env.mkdirErr = none) (h2 : env.createErr = none) :
    (StartCPU env w dir CPUTypeFGProf).2.1 =
      some (StopFn.fgprofStop (joinPath dir "cpu.fgprof.pprof")) ∧
    (StartCPU env w dir CPUTypeFGProf).2.2 = none := by
  simp [StartCPU, osMkdirAll, osCreate, h1, h2, CPUTypeBuiltIn, CPUTypeFGProf]

/-- Claim C8 witness at a concrete directory and oracle. -/
theorem startCPU_fgprof_start_always_succeeds_witness :
    (StartCPU envAllOK w0 "d" CPUTypeFGProf).2.1 =
      some (StopFn.fgprofStop "d/cpu.fgprof.pprof") ∧
    (StartCPU envAllOK w0 "d" CPUTypeFGProf).2.2 = none :=
  startCPU_fgprof_start_always_succeeds envAllOK w0 "d" rfl rfl

/-- Claim C1: when directory and file creation succeed but `trace.Start`
fails, `StartTrace` returns that error with a nil stop function and the
opened `trace.out` handle is left open: the final action trace ends with the
create (no close action), and the handle remains in the open set (leak). -/
theorem startTrace_start_failure_leaks (env : Env) (w : World) (dir : String) (e : Err)
    (h1 : env.mkdirErr = none) (h2 : env.createErr = none)
    (h3 : env.traceStartErr = some e) :
    StartTrace env w dir =
      ({ w with
          events := w.events ++
            [Event.mkdirAll dir, Event.createFile (joinPath dir "trace.out")],
          openFiles := joinPath dir "trace.out" :: w.openFiles },
        none, some e) ∧
    joinPath dir "trace.out" ∈ (StartTrace env w dir).1.openFiles := by
  constructor <;> simp [StartTrace, osMkdirAll, osCreate, h1, h2, h3]

/-- Claim C1 witness at a concrete directory and oracle. -/
theorem startTrace_start_failure_leaks_witness :
    StartTrace { envAllOK with traceStartErr := some e0 } w0 "d" =
      ({ events := [Event.mkdirAll "d", Event.createFile "d/trace.out"],
         openFiles := ["d/trace.out"], memProfileRate := 0 },
        none, some e0) ∧
    "d/trace.out" ∈ (StartTrace { envAllOK with traceStartErr := some e0 } w0 "d").1.openFiles :=
  startTrace_start_failure_leaks { envAllOK with traceStartErr := some e0 } w0 "d" e0
    rfl rfl rfl

/-- Claim C2 counterexample: with both the fgprof flush and the close
failing, the stop function does not propagate the flush error alone; it
returns the combination of the flush error and the wrapped close error. -/
theorem fgprof_stop_both_fail_combined :
    (runStop (StopFn.fgprofStop "d/cpu.fgprof.pprof")
        { envAllOK with closeErr := some (Err.base "close failed"),
                        fgprofStopErr := some (Err.base "flush failed") } w0).2 =
      some (Err.merge (Err.base "flush failed")
        (Err.wrap "close d/cpu.fgprof.pprof" (Err.base "close failed"))) ∧
    (runStop (StopFn.fgprofStop "d/cpu.fgprof.pprof")
        { envAllOK with closeErr := some (Err.base "close failed"),
                        fgprofStopErr := some (Err.base "flush failed") } w0).2 ≠
      some (Err.base "flush failed") := by
  exact ⟨rfl, by decide⟩

/-- Claim C2 amended: the fgprof stop function invokes the flush callback
first and then always attempts the close (the action trace gains the flush
action followed by the close action); when the flush succeeds, a close
failure is the error propagated (wrapped with the path); when the close
succeeds, the flush error is propagated; when both fail, the propagated
error combines the flush error with the wrapped close error rather than
being the flush error alone. -/
theorem fgprof_stop_behaviour (env : Env) (w : World) (path : String) :
    (runStop (StopFn.fgprofStop path) env w).1.events =
      w.events ++ [Event.fgprofStop, Event.closeFile path] ∧
    (runStop (StopFn.fgprofStop path) env w).1.openFiles = w.openFiles.erase path ∧
    (runStop (StopFn.fgprofStop path) env w).2 =
      (match env.fgprofStopErr, env.closeErr with
        | none, none => none
        | none, some ce => some (Err.wrap ("close " ++ path) ce)
        | some fe, none => some fe
        | some fe, some ce =>
          some (Err.merge fe (Err.wrap ("close " ++ path) ce))) := by
  refine ⟨by simp [runStop, fClose], by simp [runStop, fClose], ?_⟩
  rcases hf : env.fgprofStopErr with _ | fe <;> rcases hc : env.closeErr with _ | ce <;>
    simp [runStop, fClose, errcaptureDo, hf, hc]

/-- Claim C5: when the built-in backend reaches the profiler-attachment step
and `pprof.StartCPUProfile` fails, `StartCPU` returns a nil stop function,
the opened `cpu.pprof` handle is closed again (the open set returns to its
initial value and a close action is traced), and the attachment error is
returned: it is contained in the non-nil returned error, and is returned
exactly when the close itself succeeds. -/
theorem startCPU_builtin_attach_failure (env : Env) (w : World) (dir : String) (e : Err)
    (h1 : env.mkdirErr = none) (h2 : env.createErr = none)
    (h3 : env.startCPUProfileErr = some e) :
    (StartCPU env w dir CPUTypeBuiltIn).2.1 = none ∧
    errHas (StartCPU env w dir CPUTypeBuiltIn).2.2 e = true ∧
    (env.closeErr = none → (StartCPU env w dir CPUTypeBuiltIn).2.2 = some e) ∧
    (StartCPU env w dir CPUTypeBuiltIn).1.openFiles = w.openFiles ∧
    Event.closeFile (joinPath dir "cpu.pprof") ∈
      (StartCPU env w dir CPUTypeBuiltIn).1.events := by
  rcases hc : env.closeErr with _ | ce <;>
    simp [StartCPU, osMkdirAll, osCreate, fClose, errcaptureDo, h1, h2, h3, hc,
      CPUTypeBuiltIn, CPUTypeFGProf, errHas, includesErr, includesErr_self]

/-- Claim C5 witness at a concrete directory and oracle. -/
theorem startCPU_builtin_attach_failure_witness :
    (StartCPU { envAllOK with startCPUProfileErr := some e0 } w0 "d" CPUTypeBuiltIn).2.1 =
      none ∧
    errHas (StartCPU { envAllOK with startCPUProfileErr := some e0 } w0 "d"
      CPUTypeBuiltIn).2.2 e0 = true ∧
    ({ envAllOK with startCPUProfileErr := some e0 }.closeErr = none →
      (StartCPU { envAllOK with startCPUProfileErr := some e0 } w0 "d"
        CPUTypeBuiltIn).2.2 = some e0) ∧
    (StartCPU { envAllOK with startCPUProfileErr := some e0 } w0 "d"
      CPUTypeBuiltIn).1.openFiles = w0.openFiles ∧
    Event.closeFile (joinPath "d" "cpu.pprof") ∈
      (StartCPU { envAllOK with startCPUProfileErr := some e0 } w0 "d"
        CPUTypeBuiltIn).1.events :=
  startCPU_builtin_attach_failure { envAllOK with startCPUProfileErr := some e0 }
    w0 "d" e0 rfl rfl rfl

/-- `isCreate ev`: `ev` is a file creation/truncation action. -/
def isCreate : Event → Bool
  | Event.createFile _ => true
  | _ => false

/-- Claim C4: when directory and file creation succeed, `Heap` ensures the
directory exists, creates/truncates `dir/mem.pprof`, and closes the handle
(the open set returns to its initial value); on write success a heap
snapshot is traced into the file and the result is exactly the wrapped close
error, if any; the write error, when the write fails, is contained in the
returned error, and a close error is always surfaced wrapped with "close"
inside the returned error, never dropped. -/
theorem heap_snapshot_spec (env : Env) (w : World) (dir : String)
    (h1 : env.mkdirErr = none) (h2 : env.createErr = none) :
    Event.mkdirAll dir ∈ (Heap env w dir).1.events ∧
    Event.createFile (joinPath dir "mem.pprof") ∈ (Heap env w dir).1.events ∧
    Event.closeFile (joinPath dir "mem.pprof") ∈ (Heap env w dir).1.events ∧
    (Heap env w dir).1.openFiles = w.openFiles ∧
    (env.writeHeapErr = none →
      Event.writeHeap (joinPath dir "mem.pprof") ∈ (Heap env w dir).1.events ∧
      (Heap env w dir).2 = Option.map (fun c => Err.wrap "close" c) env.closeErr) ∧
    errHasOpt (Heap env w dir).2 env.writeHeapErr = true ∧
    errHasOpt (Heap env w dir).2
      (Option.map (fun c => Err.wrap "close" c) env.closeErr) = true := by
  rcases hw : env.writeHeapErr with _ | we <;> rcases hc : env.closeErr with _ | ce <;>
    simp [Heap, osMkdirAll, osCreate, fClose, pprofWriteHeapProfile, errcaptureDo,
      h1, h2, hw, hc, errHasOpt, errHas, includesErr, includesErr_self]

/-- Claim C4 witness with a failing write and a failing close. -/
theorem heap_snapshot_spec_witness :
    Event.mkdirAll "d" ∈
      (Heap { envAllOK with writeHeapErr := some (Err.base "write failed"),
                            closeErr := some (Err.base "close failed") } w0 "d").1.events ∧
    Event.createFile (joinPath "d" "mem.pprof") ∈
      (Heap { envAllOK with writeHeapErr := some (Err.base "write failed"),
                            closeErr := some (Err.base "close failed") } w0 "d").1.events ∧
    Event.closeFile (joinPath "d" "mem.pprof") ∈
      (Heap { envAllOK with writeHeapErr := some (Err.base "write failed"),
                            closeErr := some (Err.base "close failed") } w0 "d").1.events ∧
    (Heap { envAllOK with writeHeapErr := some (Err.base "write failed"),
                          closeErr := some (Err.base "close failed") } w0 "d").1.openFiles =
      w0.openFiles ∧
    ({ envAllOK with writeHeapErr := some (Err.base "write failed"),
                     closeErr := some (Err.base "close failed") }.writeHeapErr = none →
      Event.writeHeap (joinPath "d" "mem.pprof") ∈
        (Heap { envAllOK with writeHeapErr := some (Err.base "write failed"),
                              closeErr := some (Err.base "close failed") } w0 "d").1.events ∧
      (Heap { envAllOK with writeHeapErr := some (Err.base "write failed"),
                            closeErr := some (Err.base "close failed") } w0 "d").2 =
        Option.map (fun c => Err.wrap "close" c)
          { envAllOK with writeHeapErr := some (Err.base "write failed"),
                          closeErr := some (Err.base "close failed") }.closeErr) ∧
    errHasOpt
      (Heap { envAllOK with writeHeapErr := some (Err.base "write failed"),
                            closeErr := some (Err.base "close failed") } w0 "d").2
      { envAllOK with writeHeapErr := some (Err.base "write failed"),
                      closeErr := some (Err.base "close failed") }.writeHeapErr = true ∧
    errHasOpt
      (Heap { envAllOK with writeHeapErr := some (Err.base "write failed"),
                            closeErr := some (Err.base "close failed") } w0 "d").2
      (Option.map (fun c => Err.wrap "close" c)
        { envAllOK with writeHeapErr := some (Err.base "write failed"),
                        closeErr := some (Err.base "close failed") }.closeErr) = true :=
  heap_snapshot_spec
    { envAllOK with writeHeapErr := some (Err.base "write failed"),
                    closeErr := some (Err.base "close failed") } w0 "d" rfl rfl

/-- Claim C6: with a known backend and successful directory and file
creation, `StartCPU` creates/truncates exactly one file, inside `dir`, whose
name is determined by the backend: `cpu.fgprof.pprof` for fgprof and
`cpu.pprof` for built-in; this holds on every later path (also when the
built-in attachment then fails). -/
theorem startCPU_backend_filename (env : Env) (w : World) (dir typ : String)
    (hknown : typ = CPUTypeBuiltIn ∨ typ = CPUTypeFGProf)
    (h1 : env.mkdirErr = none) (h2 : env.createErr = none) :
    (StartCPU env w dir typ).1.events.filter isCreate =
      w.events.filter isCreate ++
        [Event.createFile
          (joinPath dir (if typ = CPUTypeFGProf then "cpu.fgprof.pprof" else "cpu.pprof"))] := by
  rcases hknown with h | h <;> subst h <;>
    rcases ha : env.startCPUProfileErr with _ | ae <;>
    simp [StartCPU, osMkdirAll, osCreate, fClose, h1, h2, ha,
      CPUTypeBuiltIn, CPUTypeFGProf, isCreate, List.filter_append]

/-- Claim C6 witness at the fgprof backend. -/
theorem startCPU_backend_filename_witness :
    (StartCPU envAllOK w0 "d" "fgprof").1.events.filter isCreate =
      w0.events.filter isCreate ++
        [Event.createFile
          (joinPath "d" (if "fgprof" = CPUTypeFGProf then "cpu.fgprof.pprof" else "cpu.pprof"))] :=
  startCPU_backend_filename envAllOK w0 "d" "fgprof" (Or.inr rfl) rfl rfl

/-- Claim C9: for every fault oracle, world, directory and backend value,
`StartCPU` and `StartTrace` return a nil stop function exactly when they
return a non-nil error: the caller never gets both or neither. -/
theorem start_nil_closer_iff_error (env : Env) (w : World) (dir typ : String) :
    ((StartCPU env w dir typ).2.1 = none ↔ (StartCPU env w dir typ).2.2 ≠ none) ∧
    ((StartTrace env w dir).2.1 = none ↔ (StartTrace env w dir).2.2 ≠ none) := by
  constructor
  · simp only [StartCPU, osMkdirAll, osCreate, fClose, errcaptureDo]
    repeat' split
    all_goals simp_all
  · simp only [StartTrace, osMkdirAll, osCreate]
    repeat' split
    all_goals simp_all

end Profiles
